import Mathlib

/-!
Shallow embedding of the GopherDB storage engine (src/engine/pager.go,
src/engine/log.go) and verification of the frozen claims.

Conventions of the embedding:
- Bytes are modelled as `Nat` values (the code never does byte arithmetic
  that could overflow: no checksum computation is implemented).
- Go byte slices become `List Nat`.
- A Go function returning `(T, error)` becomes a function returning a pair
  whose second component is an `Option` of the error value (`none` = nil).
- `os.File` is modelled by `DBFile`: its `Stat().Size()` and the byte at a
  given absolute offset.  `map` data structures become association lists.
- Functions whose Go body is a TODO stub are embedded exactly as the stub
  behaves (e.g. `return nil, nil`), never as the documented intent.
-/

namespace GopherDB

/-- pager.go: PageSize constant (4096). -/
def PageSize : Nat := 4096

/-- pager.go: HeaderSize constant (64). -/
def HeaderSize : Nat := 64

/-- pager.go: FooterSize constant (32). -/
def FooterSize : Nat := 32

/-- pager.go: MaxBodySize = PageSize - HeaderSize - FooterSize. -/
def MaxBodySize : Nat := PageSize - HeaderSize - FooterSize

/-- pager.go: the PageType enumeration (iota 0,1,2,3). -/
inductive PageType where
  | Data
  | Index
  | Metadata
  | Overflow
deriving DecidableEq, Repr

/-- pager.go: PageHeader struct.  PageID/NextPageID/PrevPageID are uint64,
RecordCount/FreeSpace/Checksum uint32, Reserved a 24-byte array. -/
structure PageHeader where
  PageID : Nat
  PType : PageType
  RecordCount : Nat
  FreeSpace : Nat
  NextPageID : Nat
  PrevPageID : Nat
  Checksum : Nat
  Reserved : List Nat
deriving DecidableEq, Repr

/-- The zero value of PageHeader, as produced by the Go literal PageHeader with no fields, or by
`var header PageHeader` (all fields zero, PageType zero value = Data). -/
def zeroPageHeader : PageHeader :=
  ⟨0, PageType.Data, 0, 0, 0, 0, 0, List.replicate 24 0⟩

/-- pager.go: PageFooter struct. -/
structure PageFooter where
  Checksum : Nat
  PageIntegrity : Nat
  Reserved : List Nat
deriving DecidableEq, Repr

/-- The zero value of PageFooter (Go `PageFooter{}` / `var footer PageFooter`). -/
def zeroPageFooter : PageFooter := ⟨0, 0, List.replicate 24 0⟩

/-- pager.go: Page struct (header, body bytes, footer, transient dirty flag). -/
structure Page where
  Header : PageHeader
  Body : List Nat
  Footer : PageFooter
  dirty : Bool
deriving DecidableEq, Repr

/-- Model of the opened backing `os.File`: its current size and content
(byte at each absolute offset; offsets past `size` are never consulted by
the embedded operations). -/
structure DBFile where
  size : Nat
  byteAt : Nat → Nat

/-- pager.go: Pager struct.  The mutex is irrelevant to the sequential
embedding; `pageCache` (a Go map) is an association list PageID to Page. -/
structure Pager where
  file : DBFile
  pageCache : List (Nat × Page)
  maxPages : Nat
  nextPageID : Nat

/-- pager.go: PagerConfig struct. -/
structure PagerConfig where
  FilePath : String
  MaxCacheSize : Nat
  ReadOnly : Bool

/-- pager.go: PagerError carries an operation name and (the message of) the
wrapped error. -/
structure PagerError where
  Op : String
  Msg : String
deriving DecidableEq, Repr

/-- pager.go NewPage: the Go body ignores `pageType` and returns
`&Page{Header: PageHeader{}, Body: make([]byte, MaxBodySize), Footer: PageFooter{}, dirty: false}`. -/
def NewPage (pageType : PageType) : Page :=
  ⟨zeroPageHeader, List.replicate MaxBodySize 0, zeroPageFooter, false⟩

/-- pager.go parseHeader: the body is a TODO-style stub -
`var header PageHeader; return header, nil` - so every buffer parses to the
zero header with no error. -/
def parseHeader (buffer : List Nat) : PageHeader × Option PagerError :=
  (zeroPageHeader, none)

/-- pager.go parseFooter: stub - `var footer PageFooter; return footer, nil`. -/
def parseFooter (buffer : List Nat) : PageFooter × Option PagerError :=
  (zeroPageFooter, none)

/-- pager.go Page.Serialize: the body is a TODO stub - `return nil, nil` -
so it produces no bytes (nil slice) and no error. -/
def PageSerialize (p : Page) : Option (List Nat) × Option PagerError :=
  (none, none)

/-- pager.go DeserializePage: the body is a TODO stub - `return nil, nil` -
so every input yields a nil page and no error. -/
def DeserializePage (data : List Nat) : Option Page × Option PagerError :=
  (none, none)

/-- pager.go Pager.AllocatePage: the body is a TODO stub - `return nil, nil`.
No page is constructed, nothing is cached, the counter does not move. -/
def AllocatePage (p : Pager) (pageType : PageType) :
    (Option Page × Option PagerError) × Pager :=
  ((none, none), p)

/-- pager.go Pager.addToCache: the body is a TODO stub (empty), so the
pager state is unchanged. -/
def addToCache (p : Pager) (page : Page) : Pager := p

/-- pager.go Pager.evictLRU: the body is a TODO stub - `return nil`. -/
def evictLRU (p : Pager) : Option PagerError × Pager := (none, p)

/-- pager.go Pager.CommitTransaction: the body is a TODO stub - `return nil` -
so it reports success and changes nothing. -/
def CommitTransaction (p : Pager) : Option PagerError × Pager := (none, p)

/-- pager.go Pager.ReadPage.  First check: `pageID > PageID(p.maxPages)`
(note: the bound is the cache capacity, not the allocation counter).
Then `offset := pageID * PageSize`; Stat cannot fail in the model; the
second check is `offset > file size`.  `ReadAt` of a full PageSize buffer
fails (io.EOF on a short read) when fewer than PageSize bytes remain, which
the code reports as a read error.  parseHeader/parseFooter are the stubs
above; the body is `buffer[HeaderSize : PageSize-FooterSize]`. -/
def ReadPage (p : Pager) (pageID : Nat) : Option Page × Option PagerError :=
  if pageID > p.maxPages then
    (none, some ⟨"ReadPage", "unable to read page"⟩)
  else
    let offset := pageID * PageSize
    if offset > p.file.size then
      (none, some ⟨"ReadPage", "out of bounds of file"⟩)
    else if offset + PageSize > p.file.size then
      (none, some ⟨"ReadPage", "error reading file from offset"⟩)
    else
      let buffer := (List.range PageSize).map (fun i => p.file.byteAt (offset + i))
      let headerComponent := (parseHeader buffer).1
      let footerComponent := (parseFooter buffer).1
      let bodyComponent := (buffer.drop HeaderSize).take (PageSize - FooterSize - HeaderSize)
      (some ⟨headerComponent, bodyComponent, footerComponent, false⟩, none)

/-- One call to `os.OpenFile` observed by the environment: the path and
whether the call used O_CREATE (the read-write branch). -/
structure OpenCall where
  path : String
  create : Bool
deriving DecidableEq, Repr

/-- pager.go NewPager.  `env` models `os.OpenFile` (success yields a file,
failure the error message).  Besides the Go result we return the list of
OpenFile calls performed, to express on-disk effects (file creation). -/
def NewPager (env : String → Bool → Except String DBFile) (config : PagerConfig) :
    (Option Pager × Option PagerError) × List OpenCall :=
  if config.FilePath.length = 0 then
    ((none, some ⟨"NewPager", "filepath cannot be empty"⟩), [])
  else if config.ReadOnly then
    match env config.FilePath false with
    | Except.error e =>
        ((none, some ⟨"NewPager", "unable to open file: " ++ e⟩), [⟨config.FilePath, false⟩])
    | Except.ok file =>
        ((some ⟨file, [], config.MaxCacheSize, 1⟩, none), [⟨config.FilePath, false⟩])
  else
    match env config.FilePath true with
    | Except.error e =>
        ((none, some ⟨"NewPager", "unable to open file: " ++ e⟩), [⟨config.FilePath, true⟩])
    | Except.ok file =>
        ((some ⟨file, [], config.MaxCacheSize, 1⟩, none), [⟨config.FilePath, true⟩])

/-- log.go: WALEntryType is a Go `int` with iota constants
EntryTypeWrite = 0, EntryTypeCommit = 1. -/
inductive WALEntryType where
  | Write
  | Commit
deriving DecidableEq, Repr

/-- log.go: ENTRY_SIZE constant (8216). -/
def ENTRY_SIZE : Nat := 8216

/-- log.go: WriteAheadLogEntry.  TxnID uint64, Type WALEntryType, PageID
uint64, Offset uint32; OldData/NewData are [PageSize]byte arrays, here byte
lists of length PageSize. -/
structure WriteAheadLogEntry where
  TxnID : Nat
  EType : WALEntryType
  EPageID : Nat
  Offset : Nat
  OldData : List Nat
  NewData : List Nat
deriving DecidableEq, Repr

/-- The zero value of WriteAheadLogEntry, as built by the Go
composite literal with no fields (arrays zeroed, Type zero = EntryTypeWrite). -/
def zeroWALEntry : WriteAheadLogEntry :=
  ⟨0, WALEntryType.Write, 0, 0, List.replicate PageSize 0, List.replicate PageSize 0⟩

/-- Little-endian value of a byte list (first byte least significant),
as read by encoding/binary with binary.LittleEndian. -/
def leVal : List Nat → Nat
  | [] => 0
  | b :: bs => b + 256 * leVal bs

/-- A successful `binary.Read` of a fixed-size integer of width `w` from a
bytes.Reader positioned at `pos` inside `data`: it consumes `w` bytes and
decodes them little-endian.  In DeserializeData the reader always holds
enough bytes for every performed read (ENTRY_SIZE = 8216 is larger than
8+8+4+4096+4096), so the short-read branch of io.ReadFull never fires. -/
def readLE (data : List Nat) (pos w : Nat) : Nat :=
  leVal ((data.drop pos).take w)

/-- A `bytes.Reader.Read` into a destination array of length `w` starting
at `pos`: it copies min(w, remaining) bytes; the untouched tail of the
destination keeps its zero value. -/
def readBytes (data : List Nat) (pos w : Nat) : List Nat :=
  let n := min w (data.length - pos)
  ((data.drop pos).take n) ++ List.replicate (w - n) 0

/-- log.go DeserializeData.  Rejects data whose length differs from `size`
(returning the zero entry plus an error).  Otherwise it performs the
binary.Read sequence of the Go body over a bytes.Reader.  The second read,
`binary.Read(buf, binary.LittleEndian, &entry.Type)`, targets a value of Go
kind `int` (WALEntryType), which encoding/binary rejects with an
"invalid type" error before consuming any input; the Go code discards every
binary.Read error, so Type keeps its zero value EntryTypeWrite and the
reader position is unchanged.  Hence: TxnID from bytes 0-7, PageID from
bytes 8-15, Offset from bytes 16-19, OldData from bytes 20-4115, NewData
from bytes 4116-8211. -/
def DeserializeData (data : List Nat) (size : Nat) :
    WriteAheadLogEntry × Option String :=
  if data.length ≠ size then
    (zeroWALEntry, some "invalid entry size")
  else
    ({ TxnID := readLE data 0 8
       EType := WALEntryType.Write
       EPageID := readLE data 8 8
       Offset := readLE data 16 4
       OldData := readBytes data 20 PageSize
       NewData := readBytes data (20 + PageSize) PageSize }, none)

/-- log.go WriteAheadLog.Replay, with the WAL file contents as a byte list
(`remaining` is the unread suffix; the Go loop reads the file cursor
forward).  Each iteration allocates a zeroed ENTRY_SIZE buffer and calls
`wal.File.Read`: at end of file Read returns io.EOF and the loop breaks;
otherwise it fills the first min(ENTRY_SIZE, remaining) bytes of the buffer
and returns no error (a short read of a trailing fragment is NOT io.EOF),
so the zero-padded buffer - always of length ENTRY_SIZE - is passed to
DeserializeData and the decoded entry is appended. -/
def Replay (remaining : List Nat) : List WriteAheadLogEntry × Option String :=
  if h : remaining = [] then
    ([], none)
  else
    let buffer := remaining.take ENTRY_SIZE ++
      List.replicate (ENTRY_SIZE - remaining.length) 0
    let res := DeserializeData buffer ENTRY_SIZE
    if res.2.isSome then
      ([], some "unable to deserialize data")
    else
      let rest := Replay (remaining.drop ENTRY_SIZE)
      (res.1 :: rest.1, rest.2)
termination_by remaining.length
decreasing_by
  simp only [List.length_drop, ENTRY_SIZE]
  have hpos : 0 < remaining.length := List.length_pos.mpr h
  omega

/-! Helper lemmas about the WAL embedding, shared by several claims. -/

/-- The decoder leaves the Type of the entry at the zero value EntryTypeWrite on
every input: binary.Read cannot decode into the Go `int`-kinded WALEntryType,
and the size-mismatch branch returns the zero entry. -/
theorem deserializeData_etype (data : List Nat) (size : Nat) :
    (DeserializeData data size).1.EType = WALEntryType.Write := by
  unfold DeserializeData
  split <;> rfl

/-- The size guard never fires on a buffer of length ENTRY_SIZE. -/
theorem deserializeData_ok (data : List Nat) (h : data.length = ENTRY_SIZE) :
    (DeserializeData data ENTRY_SIZE).2 = none := by
  unfold DeserializeData
  rw [if_neg]
  simp [h]

/-- The zero-padded read buffer of a Replay iteration always has length
ENTRY_SIZE. -/
theorem replay_buffer_length (l : List Nat) :
    (l.take ENTRY_SIZE ++ List.replicate (ENTRY_SIZE - l.length) 0).length = ENTRY_SIZE := by
  simp only [List.length_append, List.length_take, List.length_replicate]
  omega

/-- Replay at end of file: the first Read returns io.EOF. -/
theorem replay_nil : Replay [] = ([], none) := by
  rw [Replay]
  simp

/-- One Replay iteration on a non-empty unread suffix: the zero-padded
buffer always deserializes without error, so the decoded entry is consed
onto the entries of the rest. -/
theorem replay_step (l : List Nat) (h : l ≠ []) :
    Replay l =
      ((DeserializeData (l.take ENTRY_SIZE ++ List.replicate (ENTRY_SIZE - l.length) 0)
          ENTRY_SIZE).1 :: (Replay (l.drop ENTRY_SIZE)).1,
        (Replay (l.drop ENTRY_SIZE)).2) := by
  rw [Replay]
  rw [dif_neg h]
  have hlen := replay_buffer_length l
  have hok := deserializeData_ok _ hlen
  simp only [hok, Option.isSome_none, Bool.false_eq_true, if_false]

/-- Replay of a file that starts with one complete ENTRY_SIZE record:
the record is decoded and Replay continues on the rest. -/
theorem replay_append_rec (r rest : List Nat) (hr : r.length = ENTRY_SIZE) :
    Replay (r ++ rest) =
      ((DeserializeData r ENTRY_SIZE).1 :: (Replay rest).1, (Replay rest).2) := by
  have hne : r ++ rest ≠ [] := by
    intro hc
    have : r = [] := by
      cases r with
      | nil => rfl
      | cons a as => simp at hc
    rw [this] at hr
    simp [ENTRY_SIZE] at hr
  rw [replay_step _ hne]
  have ht : (r ++ rest).take ENTRY_SIZE = r := List.take_left' hr
  have hd : (r ++ rest).drop ENTRY_SIZE = rest := List.drop_left' hr
  have hz : ENTRY_SIZE - (r ++ rest).length = 0 := by
    simp only [List.length_append, hr]
    omega
  rw [ht, hd, hz]
  simp

/-! Concrete artifacts used by individual claims. -/

/-- A backing file of 16384 bytes (four page slots), all zero. -/
def c4file : DBFile := ⟨16384, fun _ => 0⟩

/-- A pager fresh from NewPager semantics (nextPageID = 1, empty cache) with
cache capacity 100, over the four-slot file. -/
def c4pager : Pager := ⟨c4file, [], 100, 1⟩

/-- A pager with cache capacity 2 and an empty cache over an empty file. -/
def c3pager : Pager := ⟨⟨0, fun _ => 0⟩, [], 2, 1⟩

/-- A distinct page for cache-insertion scenarios: PageID i in the header. -/
def c3page (i : Nat) : Page :=
  ⟨{ zeroPageHeader with PageID := i }, List.replicate MaxBodySize 0, zeroPageFooter, false⟩

/-- A WAL file image: one complete ENTRY_SIZE record (all zero bytes)
followed by a 10-byte truncated trailing fragment. -/
def c7file : List Nat := List.replicate 8226 0

/-- A Write record for TxnID 1, PageID 1, in the intended fixed layout
(8-byte TxnID, 4-byte Type = 0, 8-byte PageID, 4-byte Offset, 8192 data
bytes; total ENTRY_SIZE). -/
def c1writeRec : List Nat :=
  [1, 0, 0, 0, 0, 0, 0, 0] ++ [0, 0, 0, 0] ++ [1, 0, 0, 0, 0, 0, 0, 0] ++
    [0, 0, 0, 0] ++ List.replicate 8192 0

/-- A Commit record for TxnID 1 in the intended fixed layout
(Type bytes 8-11 hold the value 1 = EntryTypeCommit). -/
def c1commitRec : List Nat :=
  [1, 0, 0, 0, 0, 0, 0, 0] ++ [1, 0, 0, 0] ++ List.replicate 8204 0

/-- A WAL image holding a committed transaction: one Write record followed
by its Commit record. -/
def c1log : List Nat := c1writeRec ++ c1commitRec

theorem c1writeRec_length : c1writeRec.length = ENTRY_SIZE := by
  simp only [c1writeRec, ENTRY_SIZE, List.length_append, List.length_cons,
    List.length_nil, List.length_replicate]

theorem c1commitRec_length : c1commitRec.length = ENTRY_SIZE := by
  simp only [c1commitRec, ENTRY_SIZE, List.length_append, List.length_cons,
    List.length_nil, List.length_replicate]

/-! The claim theorems. -/

/-- C1: the claimed recovery atomicity does not exist in the code.  No
recovery path applies WAL data: CommitTransaction is a stub that reports
success and leaves the pager untouched, and Replay cannot even recognize a
Commit record - replaying a WAL image that holds a Write record followed by
its Commit record (intended fixed layout, TxnID 1) yields two entries both
tagged EntryTypeWrite.  Hence Write entries of a committed TxnID group are
never applied, contradicting the first conjunct of the claim. -/
theorem C1_recovery_applies_nothing :
    (∀ p : Pager, CommitTransaction p = (none, p)) ∧
    (Replay c1log).1.map (fun e => e.EType) =
      [WALEntryType.Write, WALEntryType.Write] ∧
    (Replay c1log).2 = none := by
  have h2 : Replay c1commitRec = ([(DeserializeData c1commitRec ENTRY_SIZE).1], none) := by
    have h := replay_append_rec c1commitRec [] c1commitRec_length
    rw [List.append_nil] at h
    rw [h, replay_nil]
  have hrep : Replay c1log =
      ([(DeserializeData c1writeRec ENTRY_SIZE).1,
        (DeserializeData c1commitRec ENTRY_SIZE).1], none) := by
    simp only [c1log]
    rw [replay_append_rec _ _ c1writeRec_length, h2]
  refine ⟨fun p => rfl, ?_, ?_⟩
  · rw [hrep]
    simp [deserializeData_etype]
  · rw [hrep]

/-- C2: the page codec round-trip fails because both sides are stubs:
Serialize produces no bytes and DeserializePage produces no page, so
decode(encode(p)) never equals p (it is not a page at all). -/
theorem C2_codec_roundtrip_stubbed (p : Page) (buf : List Nat) :
    PageSerialize p = (none, none) ∧
    DeserializePage buf = (none, none) ∧
    (DeserializePage ((PageSerialize p).1.getD [])).1 ≠ some p :=
  ⟨rfl, rfl, by simp [DeserializePage]⟩

/-- C3: the claimed cache bound and LRU eviction do not exist: addToCache
is an empty stub, so inserting any number of pages (in particular
maxPages + 1 = 3 distinct pages into a capacity-2 pager) leaves the cache
with 0 entries instead of maxPages, and evictLRU is a stub that changes
nothing. -/
theorem C3_cache_insertions_have_no_effect (p : Pager) (ps : List Page) :
    ps.foldl addToCache p = p ∧
    evictLRU p = (none, p) ∧
    ([c3page 1, c3page 2, c3page 3].foldl addToCache c3pager).pageCache.length = 0 ∧
    c3pager.maxPages = 2 := by
  refine ⟨?_, rfl, rfl, rfl⟩
  induction ps with
  | nil => rfl
  | cons a as ih => exact ih

/-- C4: ReadPage does not check the allocation bound.  On a pager whose
allocation counter is still 1 (nothing allocated) but whose cache capacity
is 100, reading page 3 from a 4-slot file succeeds, although the claim
demands an OutOfRangeError because 3 exceeds the nextPageID counter; the
code compares the id against maxPages (the cache capacity) instead. -/
theorem C4_readPage_checks_cache_capacity_not_allocation :
    (ReadPage c4pager 3).2 = none ∧
    (ReadPage c4pager 3).1.isSome = true ∧
    c4pager.nextPageID = 1 ∧
    c4pager.maxPages = 100 :=
  ⟨rfl, rfl, rfl, rfl⟩

/-- C5: the claimed append/replay round-trip is impossible: the replay-side
decoder leaves the entry Type at EntryTypeWrite on every input of every
size (binary.Read rejects the Go int-kinded Type field and the error is
discarded), so no record whatsoever deserializes back to a Commit entry
such as (TxnID 7, EntryTypeCommit). -/
theorem C5_decoder_never_yields_commit (data : List Nat) (size : Nat) :
    (DeserializeData data size).1.EType = WALEntryType.Write ∧
    (DeserializeData data size).1 ≠
      { zeroWALEntry with TxnID := 7, EType := WALEntryType.Commit } := by
  refine ⟨deserializeData_etype data size, fun hc => ?_⟩
  have h := deserializeData_etype data size
  rw [hc] at h
  simp at h

/-- C6: allocatePage allocates nothing: the stub returns no page and no
error, leaves nextPageID where it was and the cache unchanged, so no PageID
is ever assigned, no zeroed page of the requested type is produced, and
nothing is marked dirty or cached. -/
theorem C6_allocatePage_returns_nothing (p : Pager) (t : PageType) :
    AllocatePage p t = ((none, none), p) ∧
    (AllocatePage p t).2.nextPageID = p.nextPageID ∧
    (AllocatePage p t).2.pageCache = p.pageCache :=
  ⟨rfl, rfl, rfl⟩

/-- C7: Replay does not discard a truncated trailing record.  On a WAL
image of one complete ENTRY_SIZE record followed by a 10-byte fragment,
the short read of the fragment returns no io.EOF, the zero-padded buffer is
decoded, and Replay returns 2 entries without error instead of the 1 entry
the claim requires. -/
theorem C7_replay_decodes_truncated_trailing_record :
    (Replay c7file).1.length = 2 ∧ (Replay c7file).2 = none := by
  have hsplit : c7file = List.replicate 8216 (0 : Nat) ++ List.replicate 10 0 := by
    rw [c7file, ← List.replicate_add]
  have hlen : (List.replicate 8216 (0 : Nat)).length = ENTRY_SIZE := by
    simp only [List.length_replicate, ENTRY_SIZE]
  have hne : List.replicate 10 (0 : Nat) ≠ [] := by simp
  have hdrop : (List.replicate 10 (0 : Nat)).drop ENTRY_SIZE = [] := by
    rw [List.drop_replicate]
    simp only [ENTRY_SIZE]
    decide
  have htail := replay_step _ hne
  rw [hdrop, replay_nil] at htail
  rw [hsplit, replay_append_rec _ _ hlen, htail]
  exact ⟨rfl, rfl⟩

/-- C8: corruption detection does not exist: for every buffer and every
single-byte modification of it, DeserializePage still returns (nil, nil)
- no page and, crucially, no IntegrityError - and the header/footer
parsers never fail either. -/
theorem C8_decode_never_reports_corruption (buf : List Nat) (i v : Nat) :
    DeserializePage (buf.set i v) = (none, none) ∧
    (parseHeader (buf.set i v)).2 = none ∧
    (parseFooter (buf.set i v)).2 = none ∧
    DeserializePage buf = (none, none) :=
  ⟨rfl, rfl, rfl, rfl⟩

/-- C9: NewPager on a configuration with an empty FilePath fails before
touching the file system: it returns no pager, the error carries operation
NewPager and message "filepath cannot be empty" (how the code realizes the
ConfigError of the spec), and the list of performed OpenFile calls is empty,
so no file is created. -/
theorem C9_newPager_empty_path (env : String → Bool → Except String DBFile)
    (config : PagerConfig) (h : config.FilePath.length = 0) :
    NewPager env config =
      ((none, some ⟨"NewPager", "filepath cannot be empty"⟩), []) := by
  unfold NewPager
  rw [if_pos h]

/-- An OpenFile environment in which every open succeeds, for the C9
witness. -/
def c9env : String → Bool → Except String DBFile :=
  fun _ _ => Except.ok ⟨0, fun _ => 0⟩

/-- Witness for C9 at the concrete configuration of the spec scenario:
an empty path, cache capacity 4, read-write mode. -/
theorem C9_newPager_empty_path_witness :
    NewPager c9env ⟨"", 4, false⟩ =
      ((none, some ⟨"NewPager", "filepath cannot be empty"⟩), []) :=
  C9_newPager_empty_path c9env ⟨"", 4, false⟩ rfl

/-- C10: NewPage ignores its pageType argument and returns a page whose
header is entirely the zero value (PageID 0, type tag Data, zero
checksums), whose body is exactly MaxBodySize = 4000 zero bytes, whose
footer is the zero value, and whose dirty flag is false. -/
theorem C10_newPage_ignores_type (t : PageType) :
    NewPage t = NewPage PageType.Data ∧
    (NewPage t).Header = zeroPageHeader ∧
    (NewPage t).Header.PageID = 0 ∧
    (NewPage t).Header.PType = PageType.Data ∧
    (NewPage t).Header.Checksum = 0 ∧
    (NewPage t).Footer = zeroPageFooter ∧
    (NewPage t).Body = List.replicate 4000 0 ∧
    MaxBodySize = 4000 ∧
    (NewPage t).dirty = false :=
  ⟨rfl, rfl, rfl, rfl, rfl, rfl, rfl, rfl, rfl⟩

end GopherDB
